import Mathlib

/-!
# Verification of the Kissantic-AI client auth / request layer

Shallow embedding of the token lifecycle subsystem:
* the credential store helpers (`lib/auth.ts`): `getTokens`, `setTokens`,
  `clearTokens`, `isAccessExpired`, `isRefreshTokenValid`, `handleAuthError`;
* the request layer (`lib/api.ts`): `fetchWithTimeout`,
  `getTimeoutForEndpoint`, `refreshTokens`, `getValidToken`, `fetchWithAuth`.

Times are modelled as integer epoch milliseconds.  JavaScript string / number
truthiness is modelled explicitly (`strFalsy`, the `e = 0` branch of
`isAccessExpired`).  The browser pieces that are not part of the repository
(base64 + JSON decoding of a JWT payload, the network) enter as parameters:
a decode oracle `String → JwtDecode` and per-call network outcomes carried by
an `Env` record.
-/

namespace Kissantic

/-- The persisted credential pair, as returned by `getTokens()`:
`{ accessToken: string | null, refreshToken: string | null,
   accessExpiry: number | null }`. -/
structure Tokens where
  accessToken : Option String
  refreshToken : Option String
  accessExpiry : Option Int
deriving Repr, DecidableEq

/-- The all-absent pair, the state after `clearTokens()`. -/
def emptyTokens : Tokens := ⟨none, none, none⟩

/-- JavaScript falsiness of a `string | null` value: `null` and `""` are
falsy.  Used wherever the source tests a token with `!x`. -/
def strFalsy : Option String → Bool
  | none => true
  | some s => s == ""

/-- Outcome of `JSON.parse(atob(refreshToken.split('.')[1]))` followed by the
read of `payload.exp`, as an oracle: the platform decode either throws
(`throws`), yields JSON without a numeric `exp` claim (`noExp`, so
`payload.exp * 1000` is `NaN`), or yields `exp` seconds (`exp e`). -/
inductive JwtDecode where
  | throws
  | noExp
  | exp (e : Int)
deriving Repr, DecidableEq

/-- `isAccessExpired()` from `lib/auth.ts`:
`if (!accessExpiry) return true; return Date.now() > accessExpiry - 10_000`.
`!accessExpiry` is true for `null` and for the number `0`. -/
def isAccessExpired (now : Int) (t : Tokens) : Bool :=
  match t.accessExpiry with
  | none => true
  | some e => if e = 0 then true else decide (now > e - 10000)

/-- `isRefreshTokenValid()` from `lib/auth.ts`:
returns `false` when the stored refresh token is falsy; otherwise decodes the
JWT payload — on a decode exception returns `true` (the `catch` branch), on a
payload without `exp` the comparison `Date.now() < NaN - 5000` is `false`,
and on a numeric `exp` it returns `Date.now() < exp * 1000 - 5000`. -/
def isRefreshTokenValid (now : Int) (decode : String → JwtDecode) (t : Tokens) : Bool :=
  match t.refreshToken with
  | none => false
  | some tok =>
    if tok == "" then false
    else
      match decode tok with
      | .throws => true
      | .noExp => false
      | .exp e => decide (now < e * 1000 - 5000)

/-- `s.includes(pat)` on lists of characters: some suffix of `s` starts
with `pat`. -/
def listStartsWith : List Char → List Char → Bool
  | _, [] => true
  | [], _ :: _ => false
  | a :: as, b :: bs => a == b && listStartsWith as bs

/-- `s.includes(pat)` on lists of characters. -/
def listIncludes : List Char → List Char → Bool
  | s, pat =>
    if listStartsWith s pat then true
    else
      match s with
      | [] => false
      | _ :: rest => listIncludes rest pat

/-- JavaScript `String.prototype.includes`. -/
def strIncludes (s pat : String) : Bool :=
  listIncludes s.data pat.data

/-- Parsed JSON body of a successful `POST /api/auth/refresh` response:
`{ access_token, refresh_token?, expires_in? }`. -/
structure RefreshData where
  access_token : String
  refresh_token : Option String
  expires_in : Option Int
deriving Repr, DecidableEq

/-- Outcome of one call to the refresh endpoint: `success` is an `res.ok`
response with parsed body; `httpError` is a non-ok status (the code throws
`Error(data.message || "Refresh failed")`); `netFail` is a rejected fetch
(network error or the 30 s timer). -/
inductive RefreshNet where
  | success (d : RefreshData)
  | httpError (status : Nat) (msg : String)
  | netFail (msg : String)
deriving Repr, DecidableEq

/-- Behaviour of one underlying network call, by the instant (ms after
dispatch) at which it would settle on its own: it completes with a status,
fails with an error message, or never settles. -/
inductive NetBehavior where
  | completesAt (t : Nat) (status : Nat)
  | failsAt (t : Nat) (msg : String)
  | hangs
deriving Repr, DecidableEq

/-- What `fetchWithTimeout` delivers: a response, a rejected fetch, the
distinct timeout error, or (only possible with timeout 0) no settlement. -/
inductive FetchResult where
  | ok (status : Nat)
  | netErr (msg : String)
  | timedOut (msg : String)
  | never
deriving Repr, DecidableEq

/-- The message of the error thrown when the abort timer fires. -/
def timeoutMessage : String := "Request timeout - API took too long to respond"

/-- `fetchWithTimeout(url, init, timeout)` from `lib/api.ts`.  With
`timeout = 0` the plain `fetch` promise is returned.  Otherwise a timer
aborts the request after `timeout` ms; an `AbortError` is replaced by the
distinct timeout error, any other rejection is rethrown. -/
def fetchWithTimeout (timeout : Nat) (b : NetBehavior) : FetchResult :=
  if timeout = 0 then
    match b with
    | .completesAt _ s => .ok s
    | .failsAt _ m => .netErr m
    | .hangs => .never
  else
    match b with
    | .completesAt t s => if t ≤ timeout then .ok s else .timedOut timeoutMessage
    | .failsAt t m => if t ≤ timeout then .netErr m else .timedOut timeoutMessage
    | .hangs => .timedOut timeoutMessage

/-- `DEFAULT_TIMEOUT = 30000` (30 seconds). -/
def DEFAULT_TIMEOUT : Nat := 30000

/-- `CHAT_TIMEOUT = 0` (no timeout for the chat endpoint). -/
def CHAT_TIMEOUT : Nat := 0

/-- `getTimeoutForEndpoint` from `lib/api.ts`:
`pathOrUrl.includes('/api/chat') ? CHAT_TIMEOUT : DEFAULT_TIMEOUT`. -/
def getTimeoutForEndpoint (pathOrUrl : String) : Nat :=
  if strIncludes pathOrUrl "/api/chat" then CHAT_TIMEOUT else DEFAULT_TIMEOUT

/-- The mutable world threaded through the sequential (single-caller)
embedding: the credential store, the module-level `refreshPromise` handle
(`some v` = a promise that settles to `v`; during a sequential run an
invocation observes it only before dispatch or after settlement, so the
settled value suffices), the current location, and instrumentation counters:
`authErrors` counts `handleAuthError` calls, `refreshCalls` counts refresh
endpoint invocations, `attempts` counts underlying fetches of the requested
destination and `sentAuth` logs the `Authorization` header of each. -/
structure World where
  store : Tokens
  refreshPromise : Option (Option String)
  currentPath : String
  redirected : Bool
  authErrors : Nat
  refreshCalls : Nat
  attempts : Nat
  sentAuth : List (Option String)
deriving Repr, DecidableEq

/-- The ambient environment: the clock, the platform JWT decoder, and the
network — outcome of the `k`-th refresh-endpoint call and behaviour of the
`k`-th fetch of the requested destination. -/
structure Env where
  now : Int
  decode : String → JwtDecode
  refreshNet : Nat → RefreshNet
  mainNet : Nat → NetBehavior

/-- `handleAuthError` from `lib/auth.ts`: clear the store and, unless the
current location is a public one, navigate to `/login`. -/
def handleAuthError (w : World) : World :=
  let w' := { w with store := emptyTokens, authErrors := w.authErrors + 1 }
  if w.currentPath ≠ "/login" ∧ w.currentPath ≠ "/signup" ∧ w.currentPath ≠ "/" then
    { w' with redirected := true }
  else w'

/-- `setTokens` from `lib/auth.ts`: atomically persist the whole pair. -/
def setTokensW (access refresh : String) (accessExpiryMs : Int) (w : World) : World :=
  { w with store := ⟨some access, some refresh, some accessExpiryMs⟩ }

/-- `refreshTokens` from `lib/api.ts`, one invocation run to settlement.
If `refreshPromise` is non-null its (eventual) value is returned unchanged.
Otherwise the async closure is stored in `refreshPromise` and run: the two
early `return null` paths (`!refreshToken`, `!isRefreshTokenValid()`) lie
*before* the `try`, so the `finally { refreshPromise = null }` does not run
for them and the settled handle stays in place; the exchange paths go
through the `try`/`catch`/`finally` and clear the handle. -/
def refreshTokens (env : Env) (w : World) : Option String × World :=
  match w.refreshPromise with
  | some p => (p, w)
  | none =>
    match w.store.refreshToken with
    | none =>
      (none, { handleAuthError w with refreshPromise := some none })
    | some refreshToken =>
      if refreshToken == "" then
        (none, { handleAuthError w with refreshPromise := some none })
      else if ¬ isRefreshTokenValid env.now env.decode w.store then
        (none, { handleAuthError w with refreshPromise := some none })
      else
        let k := w.refreshCalls
        let w1 := { w with refreshCalls := k + 1 }
        match env.refreshNet k with
        | .success d =>
          let expiry := env.now + (d.expires_in.getD 900) * 1000
          let w2 := setTokensW d.access_token (d.refresh_token.getD refreshToken) expiry w1
          (some d.access_token, { w2 with refreshPromise := none })
        | .httpError _ _ =>
          (none, { handleAuthError w1 with refreshPromise := none })
        | .netFail _ =>
          (none, { handleAuthError w1 with refreshPromise := none })

/-- `getValidToken` from `lib/api.ts`: use the stored access token unless it
is absent or expired, in which case delegate to `refreshTokens`. -/
def getValidToken (env : Env) (w : World) : Option String × World :=
  match w.store.accessToken with
  | none => refreshTokens env w
  | some accessToken =>
    if accessToken == "" then refreshTokens env w
    else if isAccessExpired env.now w.store then refreshTokens env w
    else (some accessToken, w)

/-- Errors thrown by `fetchWithAuth`. -/
inductive AuthErr where
  | authenticationRequired
  | authenticationFailed
  | network (msg : String)
  | timedOut (msg : String)
deriving Repr, DecidableEq

/-- Result of a `fetchWithAuth` call: a response, a thrown error, or (only
reachable when an un-timed fetch never settles) no settlement. -/
inductive AuthResult where
  | ok (status : Nat)
  | error (e : AuthErr)
  | never
deriving Repr, DecidableEq

/-- Dispatch one fetch of the requested destination: bump the attempt
counter and log the `Authorization` header (set only for a truthy token). -/
def recordAttempt (token : Option String) (w : World) : World :=
  { w with attempts := w.attempts + 1,
           sentAuth := w.sentAuth ++ [if strFalsy token then none else token] }

/-- `fetchWithAuth` from `lib/api.ts`.  Resolve a token (`getValidToken`);
with a falsy token on the first attempt throw `"Authentication required"`
after `handleAuthError`, without any fetch.  Otherwise fetch with the
per-destination timeout.  On status 401 with `retryCount = 0`, run the
refresh coordinator: a null result means `handleAuthError` plus a thrown
`"Authentication failed"`; otherwise the call recurses once with
`retryCount + 1`.  Any other 401/403 fires `handleAuthError` but the
response is still returned.  Thrown errors propagate through the `catch`
(both branches rethrow). -/
def fetchWithAuth (env : Env) (pathOrUrl : String) (w : World) (retryCount : Nat) :
    AuthResult × World :=
  let tw := getValidToken env w
  let token := tw.1
  let w1 := tw.2
  if strFalsy token ∧ retryCount = 0 then
    (.error .authenticationRequired, handleAuthError w1)
  else
    let timeout := getTimeoutForEndpoint pathOrUrl
    let k := w1.attempts
    let w2 := recordAttempt token w1
    match fetchWithTimeout timeout (env.mainNet k) with
    | .never => (.never, w2)
    | .netErr m => (.error (.network m), w2)
    | .timedOut m => (.error (.timedOut m), w2)
    | .ok status =>
      if _h : status = 401 ∧ retryCount = 0 then
        let nw := refreshTokens env w2
        match nw.1 with
        | none => (.error .authenticationFailed, handleAuthError nw.2)
        | some _ => fetchWithAuth env pathOrUrl nw.2 (retryCount + 1)
      else
        let w3 := if status = 401 ∨ status = 403 then handleAuthError w2 else w2
        (.ok status, w3)
termination_by 1 - retryCount
decreasing_by omega

/-!
## Event-loop model of concurrent `refreshTokens` invocations

JavaScript is single threaded: interleaving happens only at `await`.  A call
to `refreshTokens` runs synchronously from entry to the first `await` inside
`fetchWithTimeout` (the `fetch` itself is dispatched synchronously there), so
the test of `refreshPromise` and its assignment are one atomic block.  The
model below embeds that synchronous prefix ("block A") as one step; while no
exchange settles, the store is not mutated, so all block-A steps of
concurrent callers read the same store.
-/

/-- Shared module state seen by concurrent callers: the `refreshPromise`
handle (by promise id), the count of refresh-endpoint dispatches, and a
fresh-id supply. -/
structure CState where
  refreshPromise : Option Nat
  refreshCalls : Nat
  nextId : Nat
deriving Repr, DecidableEq

/-- Module state at load: no in-flight handle, no endpoint call yet. -/
def initCState : CState := ⟨none, 0, 0⟩

/-- What a caller holds after its synchronous prefix: a token returned
directly (fresh access token in store), or a promise it awaits. -/
inductive CallerWait where
  | token (t : String)
  | awaits (p : Nat)
deriving Repr, DecidableEq

/-- Block A of `refreshTokens`: if a handle exists, the caller attaches to
it; otherwise a new promise is created and assigned to `refreshPromise`
(this also covers the two early-`return null` paths, whose promise settles
immediately but is still assigned and left in place), and only the path that
passes both token checks dispatches the refresh-endpoint call. -/
def rtInvoke (env : Env) (store : Tokens) (s : CState) : CState × Nat :=
  match s.refreshPromise with
  | some p => (s, p)
  | none =>
    match store.refreshToken with
    | none =>
      ({ s with refreshPromise := some s.nextId, nextId := s.nextId + 1 }, s.nextId)
    | some rt =>
      if rt == "" then
        ({ s with refreshPromise := some s.nextId, nextId := s.nextId + 1 }, s.nextId)
      else if ¬ isRefreshTokenValid env.now env.decode store then
        ({ s with refreshPromise := some s.nextId, nextId := s.nextId + 1 }, s.nextId)
      else
        ({ refreshPromise := some s.nextId, refreshCalls := s.refreshCalls + 1,
           nextId := s.nextId + 1 }, s.nextId)

/-- Block A of `getValidToken`: with a truthy, unexpired access token the
caller returns it synchronously; otherwise it enters `refreshTokens`. -/
def gvtInvoke (env : Env) (store : Tokens) (s : CState) : CState × CallerWait :=
  match store.accessToken with
  | none => ((rtInvoke env store s).1, .awaits (rtInvoke env store s).2)
  | some accessToken =>
    if accessToken == "" then
      ((rtInvoke env store s).1, .awaits (rtInvoke env store s).2)
    else if isAccessExpired env.now store then
      ((rtInvoke env store s).1, .awaits (rtInvoke env store s).2)
    else (s, .token accessToken)

/-- `n` callers run their synchronous prefixes back to back (no settlement
in between): the scenario of `n` calls issued while an exchange is in
flight. -/
def invokeN (env : Env) (store : Tokens) : Nat → CState → CState × List CallerWait
  | 0, s => (s, [])
  | n + 1, s =>
    ((invokeN env store n (gvtInvoke env store s).1).1,
      (gvtInvoke env store s).2 :: (invokeN env store n (gvtInvoke env store s).1).2)

/-- The timer fires strictly before the network call would settle on its
own. -/
def timerFirst (t : Nat) : NetBehavior → Bool
  | .completesAt u _ => decide (t < u)
  | .failsAt u _ => decide (t < u)
  | .hangs => true

/-!
## Helper lemmas (instrumentation framing)
-/

theorem handleAuthError_attempts (w : World) :
    (handleAuthError w).attempts = w.attempts := by
  unfold handleAuthError; split <;> rfl

theorem handleAuthError_sentAuth (w : World) :
    (handleAuthError w).sentAuth = w.sentAuth := by
  unfold handleAuthError; split <;> rfl

theorem handleAuthError_authErrors (w : World) :
    (handleAuthError w).authErrors = w.authErrors + 1 := by
  unfold handleAuthError; split <;> rfl

theorem refreshTokens_attempts (env : Env) (w : World) :
    ((refreshTokens env w).2).attempts = w.attempts := by
  unfold refreshTokens
  split
  · rfl
  split
  · simp [handleAuthError_attempts]
  split
  · simp [handleAuthError_attempts]
  split
  · simp [handleAuthError_attempts]
  dsimp only
  split <;> simp [handleAuthError_attempts, setTokensW]

theorem refreshTokens_sentAuth (env : Env) (w : World) :
    ((refreshTokens env w).2).sentAuth = w.sentAuth := by
  unfold refreshTokens
  split
  · rfl
  split
  · simp [handleAuthError_sentAuth]
  split
  · simp [handleAuthError_sentAuth]
  split
  · simp [handleAuthError_sentAuth]
  dsimp only
  split <;> simp [handleAuthError_sentAuth, setTokensW]

theorem getValidToken_attempts (env : Env) (w : World) :
    ((getValidToken env w).2).attempts = w.attempts := by
  unfold getValidToken
  repeat' split
  all_goals simp [refreshTokens_attempts]

theorem getValidToken_sentAuth (env : Env) (w : World) :
    ((getValidToken env w).2).sentAuth = w.sentAuth := by
  unfold getValidToken
  repeat' split
  all_goals simp [refreshTokens_sentAuth]

/-!
## Claim C2 — the in-flight handle after the operation settles
-/

/-- A world freshly loaded with an empty credential store: no in-flight
handle, nothing stored. -/
def stuckWorld : World where
  store := emptyTokens
  refreshPromise := none
  currentPath := "/chat"
  redirected := false
  authErrors := 0
  refreshCalls := 0
  attempts := 0
  sentAuth := []

/-- An environment whose JWT decoder throws (so a present refresh token
counts as usable) and whose refresh endpoint always fails. -/
def stuckEnv : Env where
  now := 0
  decode := fun _ => JwtDecode.throws
  refreshNet := fun _ => RefreshNet.netFail "network error"
  mainNet := fun _ => NetBehavior.hangs

/-- C2 (code bug): an invocation of `refreshTokens` that starts a renewal
with no stored refresh credential settles with the shared handle still set
(`some none`, a settled promise of `null`), because the early `return null`
lies before the `try` whose `finally` clears the handle.  Consequently a
later caller that has a perfectly usable refresh credential in the store
joins the stale settled promise: it gets `null` and the refresh endpoint is
never called (`refreshCalls` stays 0). -/
theorem c2_refresh_handle_stuck :
    ((refreshTokens stuckEnv stuckWorld).2).refreshPromise = some none ∧
    (refreshTokens stuckEnv stuckWorld).1 = none ∧
    (refreshTokens stuckEnv
        { (refreshTokens stuckEnv stuckWorld).2 with
          store := ⟨none, some "R1", none⟩ }).1 = none ∧
    ((refreshTokens stuckEnv
        { (refreshTokens stuckEnv stuckWorld).2 with
          store := ⟨none, some "R1", none⟩ }).2).refreshCalls = 0 := by
  decide

/-!
## Claim C5 — the access-expiry skew margin
-/

/-- C5 counterexample: at `now = expiry − 10s` exactly (now 10000, recorded
expiry 20000) the claim demands `true` (`now ≥ expiry − 10s`), but
`isAccessExpired` compares strictly (`Date.now() > accessExpiry - 10_000`)
and returns `false`. -/
theorem c5_counterexample :
    (10000 : Int) ≥ 20000 - 10000 ∧
    isAccessExpired 10000 ⟨none, none, some 20000⟩ = false := by
  decide

/-- C5 (amended): for every recorded nonzero expiry instant,
`isAccessExpired` returns true exactly when `now > expiry − 10s` (strictly
past the margin), and it returns true whenever no expiry is recorded. -/
theorem c5_access_expiry_margin (now e : Int) (a r : Option String) (h : e ≠ 0) :
    (isAccessExpired now ⟨a, r, some e⟩ = true ↔ now > e - 10000) ∧
    isAccessExpired now ⟨a, r, none⟩ = true := by
  constructor
  · simp [isAccessExpired, h]
  · simp [isAccessExpired]

/-- Witness for C5: instant 20000 against recorded expiry 40000. -/
theorem c5_access_expiry_margin_witness :
    (isAccessExpired 20000 ⟨none, none, some 40000⟩ = true ↔
      (20000 : Int) > 40000 - 10000) ∧
    isAccessExpired 20000 ⟨none, none, none⟩ = true :=
  c5_access_expiry_margin 20000 40000 none none (by decide)

/-!
## Claim C6 — refresh-credential usability from the embedded expiry claim
-/

/-- C6: for a nonempty stored refresh credential, `isRefreshTokenValid`
returns true exactly when more than a 5-second margin remains before the
decoded expiry claim (`exp` seconds, so `now < exp·1000 − 5000`), and it
returns true whenever decoding the claim throws. -/
theorem c6_refresh_validity (now : Int) (decode : String → JwtDecode)
    (a : Option String) (e : Option Int) (tok : String) (h : tok ≠ "") :
    (decode tok = JwtDecode.throws →
      isRefreshTokenValid now decode ⟨a, some tok, e⟩ = true) ∧
    (∀ x, decode tok = JwtDecode.exp x →
      (isRefreshTokenValid now decode ⟨a, some tok, e⟩ = true ↔
        now < x * 1000 - 5000)) := by
  constructor
  · intro hd
    simp [isRefreshTokenValid, h, hd]
  · intro x hd
    simp [isRefreshTokenValid, h, hd]

/-- Witness for C6: an undecodable stored credential reports usable, a
decodable one is compared against its expiry claim. -/
theorem c6_refresh_validity_witness :
    isRefreshTokenValid 0 (fun _ => JwtDecode.throws) ⟨none, some "R", none⟩ = true ∧
    (isRefreshTokenValid 0 (fun _ => JwtDecode.exp 100) ⟨none, some "R", none⟩ = true ↔
      (0 : Int) < 100 * 1000 - 5000) :=
  ⟨(c6_refresh_validity 0 (fun _ => JwtDecode.throws) none none "R" (by decide)).1 rfl,
   (c6_refresh_validity 0 (fun _ => JwtDecode.exp 100) none none "R" (by decide)).2 100 rfl⟩

/-!
## Claim C7 — per-destination timeout policy and the distinct timeout error
-/

/-- C7: destinations containing `/api/chat` get no timeout (0), every other
destination gets the 30-second default; and whenever a nonzero configured
timer fires before the network call settles, the surfaced failure is the
distinct timeout error (not a generic network failure). -/
theorem c7_timeout_policy :
    (∀ p, strIncludes p "/api/chat" = true → getTimeoutForEndpoint p = 0) ∧
    (∀ p, strIncludes p "/api/chat" = false → getTimeoutForEndpoint p = 30000) ∧
    (∀ t b, t ≠ 0 → timerFirst t b = true →
      fetchWithTimeout t b = FetchResult.timedOut timeoutMessage) := by
  refine ⟨fun p hp => ?_, fun p hp => ?_, fun t b ht hb => ?_⟩
  · simp [getTimeoutForEndpoint, hp, CHAT_TIMEOUT]
  · simp [getTimeoutForEndpoint, hp, DEFAULT_TIMEOUT]
  · unfold fetchWithTimeout
    cases b <;> simp_all [timerFirst]

/-- Witness for C7: the chat destination, a profile destination, and a 30 s
timer firing before a 35 s response. -/
theorem c7_timeout_policy_witness :
    getTimeoutForEndpoint "/api/chat" = 0 ∧
    getTimeoutForEndpoint "/api/profile" = 30000 ∧
    fetchWithTimeout 30000 (NetBehavior.completesAt 35000 200) =
      FetchResult.timedOut timeoutMessage :=
  ⟨c7_timeout_policy.1 "/api/chat" (by decide),
   c7_timeout_policy.2.1 "/api/profile" (by decide),
   c7_timeout_policy.2.2 30000 (NetBehavior.completesAt 35000 200) (by decide) (by decide)⟩

/-!
## Claim C9 — a successful exchange persists the whole pair
-/

/-- C9: when an invocation starts a renewal (no handle in flight), the
stored refresh credential passes both checks and the endpoint answers
successfully, the coordinator persists the full new pair — keeping the prior
refresh credential if the response omits one — returns the new access
credential, and clears the handle. -/
theorem c9_refresh_persists_pair (env : Env) (w : World) (rt : String) (d : RefreshData)
    (h1 : w.refreshPromise = none) (h2 : w.store.refreshToken = some rt) (h3 : rt ≠ "")
    (h4 : isRefreshTokenValid env.now env.decode w.store = true)
    (h5 : env.refreshNet w.refreshCalls = RefreshNet.success d) :
    (refreshTokens env w).1 = some d.access_token ∧
    ((refreshTokens env w).2).store =
      ⟨some d.access_token, some (d.refresh_token.getD rt),
        some (env.now + (d.expires_in.getD 900) * 1000)⟩ ∧
    ((refreshTokens env w).2).refreshPromise = none := by
  unfold refreshTokens
  simp [h1, h2, h3, h4, h5, setTokensW]

/-- Environment for the C9 witness: the endpoint rotates the access token to
`A2`, omits the refresh token, and grants 900 seconds. -/
def c9Env : Env where
  now := 0
  decode := fun _ => JwtDecode.exp 100
  refreshNet := fun _ => RefreshNet.success ⟨"A2", none, some 900⟩
  mainNet := fun _ => NetBehavior.hangs

/-- World for the C9 witness: pair `A1` / `R1` stored, no handle in flight. -/
def c9World : World where
  store := ⟨some "A1", some "R1", some 1000⟩
  refreshPromise := none
  currentPath := "/chat"
  redirected := false
  authErrors := 0
  refreshCalls := 0
  attempts := 0
  sentAuth := []

/-- Witness for C9: the persisted pair is `A2` with the retained `R1` and
expiry `0 + 900·1000`. -/
theorem c9_refresh_persists_pair_witness :
    (refreshTokens c9Env c9World).1 = some "A2" ∧
    ((refreshTokens c9Env c9World).2).store = ⟨some "A2", some "R1", some 900000⟩ ∧
    ((refreshTokens c9Env c9World).2).refreshPromise = none :=
  c9_refresh_persists_pair c9Env c9World "R1" ⟨"A2", none, some 900⟩
    rfl rfl (by decide) (by decide) rfl

/-!
## Claim C1 — single-flight refresh under concurrent invocations
-/

/-- A usable refresh verdict needs a present, nonempty stored credential. -/
theorem isRefreshTokenValid_truthy (now : Int) (decode : String → JwtDecode)
    (t : Tokens) (h : isRefreshTokenValid now decode t = true) :
    ∃ rt, t.refreshToken = some rt ∧ rt ≠ "" := by
  unfold isRefreshTokenValid at h
  cases ht : t.refreshToken with
  | none => rw [ht] at h; simp at h
  | some rt =>
    refine ⟨rt, rfl, ?_⟩
    rw [ht] at h
    intro he
    subst he
    simp at h

/-- The first caller that finds the access credential expired creates the
handle (promise 0), dispatches the one endpoint call and awaits promise 0. -/
theorem gvtInvoke_first (env : Env) (store : Tokens)
    (hexp : isAccessExpired env.now store = true)
    (hval : isRefreshTokenValid env.now env.decode store = true) :
    gvtInvoke env store initCState = (⟨some 0, 1, 1⟩, CallerWait.awaits 0) := by
  obtain ⟨rt, h2, h3⟩ := isRefreshTokenValid_truthy _ _ _ hval
  unfold gvtInvoke rtInvoke initCState
  cases ha : store.accessToken <;> simp [ha, hexp, h2, h3, hval]

/-- Every caller that arrives while the handle is set joins that promise and
changes nothing. -/
theorem gvtInvoke_joins (env : Env) (store : Tokens) (s : CState) (p : Nat)
    (hexp : isAccessExpired env.now store = true)
    (hp : s.refreshPromise = some p) :
    gvtInvoke env store s = (s, CallerWait.awaits p) := by
  unfold gvtInvoke rtInvoke
  cases ha : store.accessToken <;> simp [ha, hexp, hp]

/-- While the handle holds promise `p`, any number of further synchronous
invocations leave the state unchanged and all await `p`. -/
theorem invokeN_joined (env : Env) (store : Tokens) (n : Nat) (s : CState) (p : Nat)
    (hexp : isAccessExpired env.now store = true)
    (hp : s.refreshPromise = some p) :
    invokeN env store n s = (s, List.replicate n (CallerWait.awaits p)) := by
  induction n with
  | zero => simp [invokeN]
  | succ n ih =>
    rw [invokeN, gvtInvoke_joins env store s p hexp hp]
    simp [ih, List.replicate_succ]

/-- C1: for any `n ≥ 2` concurrent invocations issued while the access
credential is expired and the refresh credential is valid, the refresh
endpoint is called exactly once and every caller awaits the single pending
promise 0. -/
theorem c1_single_flight (env : Env) (store : Tokens) (n : Nat) (hn : 2 ≤ n)
    (hexp : isAccessExpired env.now store = true)
    (hval : isRefreshTokenValid env.now env.decode store = true) :
    ((invokeN env store n initCState).1).refreshCalls = 1 ∧
    ∀ c ∈ (invokeN env store n initCState).2, c = CallerWait.awaits 0 := by
  obtain ⟨m, rfl⟩ : ∃ m, n = m + 1 := ⟨n - 1, by omega⟩
  rw [invokeN, gvtInvoke_first env store hexp hval,
    invokeN_joined env store m ⟨some 0, 1, 1⟩ 0 hexp rfl]
  refine ⟨rfl, fun c hc => ?_⟩
  rcases List.mem_cons.mp hc with h | h
  · exact h
  · exact List.eq_of_mem_replicate h

/-- Environment for the C1 witness. -/
def c1Env : Env where
  now := 2000000
  decode := fun _ => JwtDecode.exp 100000
  refreshNet := fun _ => RefreshNet.success ⟨"A2", none, some 900⟩
  mainNet := fun _ => NetBehavior.hangs

/-- Store for the C1 witness: access expired long ago, refresh usable. -/
def c1Store : Tokens := ⟨some "A1", some "R1", some 1000⟩

/-- Witness for C1 at `n = 2`. -/
theorem c1_single_flight_witness :
    ((invokeN c1Env c1Store 2 initCState).1).refreshCalls = 1 ∧
    ∀ c ∈ (invokeN c1Env c1Store 2 initCState).2, c = CallerWait.awaits 0 :=
  c1_single_flight c1Env c1Store 2 (by decide) (by decide) (by decide)

/-!
## Claim C3 — the executor makes at most two attempts
-/

theorem recordAttempt_attempts (t : Option String) (w : World) :
    (recordAttempt t w).attempts = w.attempts + 1 := rfl

/-- A retried call (`retryCount = 1`) makes exactly one further fetch of the
destination: the 401-refresh-resend branch requires `retryCount = 0`. -/
theorem fetchWithAuth_one_attempts (env : Env) (p : String) (w : World) :
    ((fetchWithAuth env p w 1).2).attempts = w.attempts + 1 := by
  rw [fetchWithAuth]
  simp [recordAttempt, getValidToken_attempts]
  cases hF : fetchWithTimeout (getTimeoutForEndpoint p) (env.mainNet w.attempts) <;>
    simp [apply_ite World.attempts, handleAuthError_attempts]

/-- A first-attempt call makes at most two fetches of the destination. -/
theorem fetchWithAuth_zero_attempts (env : Env) (p : String) (w : World) :
    ((fetchWithAuth env p w 0).2).attempts ≤ w.attempts + 2 := by
  rw [fetchWithAuth]
  dsimp only
  split
  · simp [handleAuthError_attempts, getValidToken_attempts]
  · cases hF : fetchWithTimeout (getTimeoutForEndpoint p)
        (env.mainNet ((getValidToken env w).2).attempts) <;>
      simp [recordAttempt_attempts, getValidToken_attempts, apply_ite World.attempts,
        handleAuthError_attempts]
    case ok status =>
      by_cases h4 : status = 401
      · subst h4
        rw [if_pos rfl]
        cases hrt : (refreshTokens env (recordAttempt (getValidToken env w).1
            (getValidToken env w).2)).1 with
        | none =>
          simp [handleAuthError_attempts, refreshTokens_attempts, recordAttempt_attempts,
            getValidToken_attempts]
        | some t =>
          simp [fetchWithAuth_one_attempts, refreshTokens_attempts, recordAttempt_attempts,
            getValidToken_attempts]
      · rw [if_neg h4]
        simp [apply_ite World.attempts, handleAuthError_attempts, recordAttempt_attempts,
          getValidToken_attempts]

/-- C3: for every environment, destination and starting world, a call
entered at `retryCount = 0` fetches the destination at most twice, and a
call entered at `retryCount = 1` (the resent request) fetches it exactly
once more — the retry counter never drives a third attempt. -/
theorem c3_retry_bounded (env : Env) (p : String) (w : World) :
    ((fetchWithAuth env p w 0).2).attempts ≤ w.attempts + 2 ∧
    ((fetchWithAuth env p w 1).2).attempts = w.attempts + 1 :=
  ⟨fetchWithAuth_zero_attempts env p w, fetchWithAuth_one_attempts env p w⟩

/-!
## Claim C8 — authentication required, no request sent
-/

/-- C8: on a first-attempt call where no usable access credential resolves
(the coordinator yielded nothing), the executor fires `handleAuthError`,
throws the authentication-required error, and sends no request to the
destination: the attempt counter and the request log are unchanged. -/
theorem c8_auth_required_no_fetch (env : Env) (p : String) (w : World)
    (h : strFalsy (getValidToken env w).1 = true) :
    (fetchWithAuth env p w 0).1 = AuthResult.error AuthErr.authenticationRequired ∧
    ((fetchWithAuth env p w 0).2).attempts = w.attempts ∧
    ((fetchWithAuth env p w 0).2).sentAuth = w.sentAuth ∧
    ((fetchWithAuth env p w 0).2).authErrors = ((getValidToken env w).2).authErrors + 1 := by
  rw [fetchWithAuth]
  simp [h, handleAuthError_attempts, handleAuthError_sentAuth, handleAuthError_authErrors,
    getValidToken_attempts, getValidToken_sentAuth]

/-- Witness for C8: an empty store and a failing refresh endpoint. -/
theorem c8_auth_required_no_fetch_witness :
    (fetchWithAuth stuckEnv "/api/profile" stuckWorld 0).1 =
      AuthResult.error AuthErr.authenticationRequired ∧
    ((fetchWithAuth stuckEnv "/api/profile" stuckWorld 0).2).attempts =
      stuckWorld.attempts ∧
    ((fetchWithAuth stuckEnv "/api/profile" stuckWorld 0).2).sentAuth =
      stuckWorld.sentAuth ∧
    ((fetchWithAuth stuckEnv "/api/profile" stuckWorld 0).2).authErrors =
      ((getValidToken stuckEnv stuckWorld).2).authErrors + 1 :=
  c8_auth_required_no_fetch stuckEnv "/api/profile" stuckWorld (by decide)

/-!
## Claim C10 — a retried call without a token is sent anyway, bare
-/

/-- C10: on the retried call (`retryCount = 1`), an unresolvable access
credential does not raise the authentication-required error; the request is
dispatched anyway, with no Authorization header logged for it. -/
theorem c10_retry_without_token (env : Env) (p : String) (w : World)
    (h : strFalsy (getValidToken env w).1 = true) :
    (fetchWithAuth env p w 1).1 ≠ AuthResult.error AuthErr.authenticationRequired ∧
    ((fetchWithAuth env p w 1).2).attempts = w.attempts + 1 ∧
    ((fetchWithAuth env p w 1).2).sentAuth = w.sentAuth ++ [none] := by
  rw [fetchWithAuth]
  simp [h, recordAttempt, getValidToken_attempts, getValidToken_sentAuth]
  cases hF : fetchWithTimeout (getTimeoutForEndpoint p) (env.mainNet w.attempts) <;>
    simp [apply_ite World.attempts, apply_ite World.sentAuth,
      handleAuthError_attempts, handleAuthError_sentAuth]

/-- Witness for C10: the empty-store world entered at `retryCount = 1`. -/
theorem c10_retry_without_token_witness :
    (fetchWithAuth stuckEnv "/api/profile" stuckWorld 1).1 ≠
      AuthResult.error AuthErr.authenticationRequired ∧
    ((fetchWithAuth stuckEnv "/api/profile" stuckWorld 1).2).attempts =
      stuckWorld.attempts + 1 ∧
    ((fetchWithAuth stuckEnv "/api/profile" stuckWorld 1).2).sentAuth =
      stuckWorld.sentAuth ++ [none] :=
  c10_retry_without_token stuckEnv "/api/profile" stuckWorld (by decide)

/-!
## Claim C4 — first-attempt 401 with a failed refresh
-/

/-- Environment for C4: the destination answers 401 promptly, the refresh
endpoint fails with a network error. -/
def c4Env : Env where
  now := 0
  decode := fun _ => JwtDecode.throws
  refreshNet := fun _ => RefreshNet.netFail "connection lost"
  mainNet := fun _ => NetBehavior.completesAt 10 401

/-- World for C4: a stored, unexpired-looking pair. -/
def c4World : World where
  store := ⟨some "A1", some "R1", some 100000⟩
  refreshPromise := none
  currentPath := "/chat"
  redirected := false
  authErrors := 0
  refreshCalls := 0
  attempts := 0
  sentAuth := []

/-- C4 counterexample: the first attempt returns 401 and the coordinator
yields nothing — the executor throws `"Authentication failed"`; it does not
return the original 401 response. -/
theorem c4_counterexample :
    (fetchWithAuth c4Env "/api/profile" c4World 0).1 =
      AuthResult.error AuthErr.authenticationFailed ∧
    (fetchWithAuth c4Env "/api/profile" c4World 0).1 ≠ AuthResult.ok 401 := by
  rw [fetchWithAuth]
  simp [c4Env, c4World, getValidToken, refreshTokens, isAccessExpired, isRefreshTokenValid,
    fetchWithTimeout, getTimeoutForEndpoint, strIncludes, listIncludes, listStartsWith,
    strFalsy, recordAttempt, handleAuthError, emptyTokens, DEFAULT_TIMEOUT, CHAT_TIMEOUT,
    setTokensW]

/-- C4 (amended): when the first attempt returns 401 and the invoked refresh
coordinator yields no fresh credential, the executor fires the
unrecoverable-failure side effect once more and throws an
`"Authentication failed"` error; the original 401 response is not returned
to the caller. -/
theorem c4_refresh_failure_throws (env : Env) (p : String) (w : World)
    (h1 : strFalsy (getValidToken env w).1 = false)
    (h2 : fetchWithTimeout (getTimeoutForEndpoint p)
        (env.mainNet ((getValidToken env w).2).attempts) = FetchResult.ok 401)
    (h3 : (refreshTokens env
        (recordAttempt (getValidToken env w).1 (getValidToken env w).2)).1 = none) :
    fetchWithAuth env p w 0 =
      (AuthResult.error AuthErr.authenticationFailed,
        handleAuthError (refreshTokens env
          (recordAttempt (getValidToken env w).1 (getValidToken env w).2)).2) := by
  rw [fetchWithAuth]
  simp [h1, h2, h3]

/-- Witness for C4 at the concrete counterexample input. -/
theorem c4_refresh_failure_throws_witness :
    fetchWithAuth c4Env "/api/profile" c4World 0 =
      (AuthResult.error AuthErr.authenticationFailed,
        handleAuthError (refreshTokens c4Env
          (recordAttempt (getValidToken c4Env c4World).1 (getValidToken c4Env c4World).2)).2) :=
  c4_refresh_failure_throws c4Env "/api/profile" c4World (by decide) (by decide) (by decide)

end Kissantic
